import Mathlib

/-!
Verification of `audio_level_analyzer.py` against its specification.

The Python source is shallowly embedded: Python strings become `List Char`
(a Python `str` is a sequence of Unicode code points), Python floats become
exact rationals `ℚ` (the decibel arithmetic of the program is modelled
exactly; IEEE rounding is idealized away), the external `ffmpeg` process is
an explicit outcome parameter, and the thread pool's completion order is an
explicit permutation parameter.
-/

/-- Model of a Python `str`: a sequence of Unicode code points. -/
abbrev PyStr := List Char

/-- Embed a Lean string literal as a Python string value. -/
def pystr (s : String) : PyStr := s.data

/-- Lexicographic order on Python strings (Python's `<=` on `str`, which
compares code points left to right). Used to model `sorted` / `list.sort`. -/
def pyStrLe : PyStr → PyStr → Bool
  | [], _ => true
  | _ :: _, [] => false
  | a :: as, b :: bs => if a < b then true else if b < a then false else pyStrLe as bs

/-- Value of the dict returned by `classify_level`
(`{"label": ..., "color": ..., "emoji": ...}`, lines 109-119). -/
structure LevelInfo where
  label : PyStr
  color : PyStr
  emoji : PyStr
deriving DecidableEq

/-- Line 109: the band returned when `mean_db < -50`. -/
def tresBasLevel : LevelInfo := ⟨pystr "TRÈS BAS", pystr "#ef4444", pystr "🔇"⟩

/-- Line 111: the band returned when `-50 <= mean_db < -42`. -/
def basLevel : LevelInfo := ⟨pystr "BAS", pystr "#f97316", pystr "🔈"⟩

/-- Line 113: the band returned when `-42 <= mean_db < -36`. -/
def moyenMoinsLevel : LevelInfo := ⟨pystr "MOYEN-", pystr "#eab308", pystr "🔉"⟩

/-- Line 115: the band returned when `-36 <= mean_db < -30`. -/
def moyenLevel : LevelInfo := ⟨pystr "MOYEN", pystr "#22c55e", pystr "🔊"⟩

/-- Line 117: the band returned when `-30 <= mean_db < -24`. -/
def moyenPlusLevel : LevelInfo := ⟨pystr "MOYEN+", pystr "#10b981", pystr "🔊"⟩

/-- Line 119: the band returned otherwise (`mean_db >= -24`). -/
def eleveLevel : LevelInfo := ⟨pystr "ÉLEVÉ", pystr "#3b82f6", pystr "📢"⟩

/-- Embedding of `classify_level` (lines 95-119): the cascade of strict
`<` tests against the ascending thresholds -50, -42, -36, -30, -24. -/
def classify_level (mean_db : ℚ) : LevelInfo :=
  if mean_db < -50 then tresBasLevel
  else if mean_db < -42 then basLevel
  else if mean_db < -36 then moyenMoinsLevel
  else if mean_db < -30 then moyenLevel
  else if mean_db < -24 then moyenPlusLevel
  else eleveLevel

/-- Position of a band in the six-band order stated by the spec
(very low < low < low-mid < mid < mid-high < high). This is a spec-side
ordering used to state monotonicity of the classifier. -/
def levelRank (l : LevelInfo) : ℕ :=
  if l = tresBasLevel then 0
  else if l = basLevel then 1
  else if l = moyenMoinsLevel then 2
  else if l = moyenLevel then 3
  else if l = moyenPlusLevel then 4
  else 5

lemma classify_level_of_lt_neg50 {q : ℚ} (h : q < -50) : classify_level q = tresBasLevel := by
  simp [classify_level, h]

lemma classify_level_of_bas {q : ℚ} (h1 : -50 ≤ q) (h2 : q < -42) :
    classify_level q = basLevel := by
  have h1' : ¬ q < -50 := not_lt.mpr h1
  simp [classify_level, h1', h2]

lemma classify_level_of_moyenMoins {q : ℚ} (h1 : -42 ≤ q) (h2 : q < -36) :
    classify_level q = moyenMoinsLevel := by
  have ha : ¬ q < -50 := not_lt.mpr (by linarith)
  have hb : ¬ q < -42 := not_lt.mpr h1
  simp [classify_level, ha, hb, h2]

lemma classify_level_of_moyen {q : ℚ} (h1 : -36 ≤ q) (h2 : q < -30) :
    classify_level q = moyenLevel := by
  have ha : ¬ q < -50 := not_lt.mpr (by linarith)
  have hb : ¬ q < -42 := not_lt.mpr (by linarith)
  have hc : ¬ q < -36 := not_lt.mpr h1
  simp [classify_level, ha, hb, hc, h2]

lemma classify_level_of_moyenPlus {q : ℚ} (h1 : -30 ≤ q) (h2 : q < -24) :
    classify_level q = moyenPlusLevel := by
  have ha : ¬ q < -50 := not_lt.mpr (by linarith)
  have hb : ¬ q < -42 := not_lt.mpr (by linarith)
  have hc : ¬ q < -36 := not_lt.mpr (by linarith)
  have hd : ¬ q < -30 := not_lt.mpr h1
  simp [classify_level, ha, hb, hc, hd, h2]

lemma classify_level_of_eleve {q : ℚ} (h1 : -24 ≤ q) : classify_level q = eleveLevel := by
  have ha : ¬ q < -50 := not_lt.mpr (by linarith)
  have hb : ¬ q < -42 := not_lt.mpr (by linarith)
  have hc : ¬ q < -36 := not_lt.mpr (by linarith)
  have hd : ¬ q < -30 := not_lt.mpr (by linarith)
  have he : ¬ q < -24 := not_lt.mpr h1
  simp [classify_level, ha, hb, hc, hd, he]

lemma levels_pairwise_ne :
    tresBasLevel ≠ basLevel ∧ tresBasLevel ≠ moyenMoinsLevel ∧ tresBasLevel ≠ moyenLevel ∧
    tresBasLevel ≠ moyenPlusLevel ∧ tresBasLevel ≠ eleveLevel ∧ basLevel ≠ moyenMoinsLevel ∧
    basLevel ≠ moyenLevel ∧ basLevel ≠ moyenPlusLevel ∧ basLevel ≠ eleveLevel ∧
    moyenMoinsLevel ≠ moyenLevel ∧ moyenMoinsLevel ≠ moyenPlusLevel ∧
    moyenMoinsLevel ≠ eleveLevel ∧ moyenLevel ≠ moyenPlusLevel ∧ moyenLevel ≠ eleveLevel ∧
    moyenPlusLevel ≠ eleveLevel := by decide

/-- Interval characterization of the classifier: each band is hit exactly on
its half-open interval. -/
lemma classify_level_iff (q : ℚ) :
    (classify_level q = tresBasLevel ↔ q < -50) ∧
    (classify_level q = basLevel ↔ -50 ≤ q ∧ q < -42) ∧
    (classify_level q = moyenMoinsLevel ↔ -42 ≤ q ∧ q < -36) ∧
    (classify_level q = moyenLevel ↔ -36 ≤ q ∧ q < -30) ∧
    (classify_level q = moyenPlusLevel ↔ -30 ≤ q ∧ q < -24) ∧
    (classify_level q = eleveLevel ↔ -24 ≤ q) := by
  obtain ⟨d1, d2, d3, d4, d5, d6, d7, d8, d9, d10, d11, d12, d13, d14, d15⟩ :=
    levels_pairwise_ne
  rcases lt_or_le q (-50) with h1 | h1
  · rw [classify_level_of_lt_neg50 h1]
    refine ⟨iff_of_true rfl h1, ?_, ?_, ?_, ?_, ?_⟩
    · exact iff_of_false d1 (by rintro ⟨ha, _⟩; linarith)
    · exact iff_of_false d2 (by rintro ⟨ha, _⟩; linarith)
    · exact iff_of_false d3 (by rintro ⟨ha, _⟩; linarith)
    · exact iff_of_false d4 (by rintro ⟨ha, _⟩; linarith)
    · exact iff_of_false d5 (by intro ha; linarith)
  · rcases lt_or_le q (-42) with h2 | h2
    · rw [classify_level_of_bas h1 h2]
      refine ⟨iff_of_false d1.symm (by linarith), iff_of_true rfl ⟨h1, h2⟩, ?_, ?_, ?_, ?_⟩
      · exact iff_of_false d6 (by rintro ⟨ha, _⟩; linarith)
      · exact iff_of_false d7 (by rintro ⟨ha, _⟩; linarith)
      · exact iff_of_false d8 (by rintro ⟨ha, _⟩; linarith)
      · exact iff_of_false d9 (by intro ha; linarith)
    · rcases lt_or_le q (-36) with h3 | h3
      · rw [classify_level_of_moyenMoins h2 h3]
        refine ⟨iff_of_false d2.symm (by linarith), ?_, iff_of_true rfl ⟨h2, h3⟩, ?_, ?_, ?_⟩
        · exact iff_of_false d6.symm (by rintro ⟨_, hb⟩; linarith)
        · exact iff_of_false d10 (by rintro ⟨ha, _⟩; linarith)
        · exact iff_of_false d11 (by rintro ⟨ha, _⟩; linarith)
        · exact iff_of_false d12 (by intro ha; linarith)
      · rcases lt_or_le q (-30) with h4 | h4
        · rw [classify_level_of_moyen h3 h4]
          refine ⟨iff_of_false d3.symm (by linarith), ?_, ?_, iff_of_true rfl ⟨h3, h4⟩, ?_, ?_⟩
          · exact iff_of_false d7.symm (by rintro ⟨_, hb⟩; linarith)
          · exact iff_of_false d10.symm (by rintro ⟨_, hb⟩; linarith)
          · exact iff_of_false d13 (by rintro ⟨ha, _⟩; linarith)
          · exact iff_of_false d14 (by intro ha; linarith)
        · rcases lt_or_le q (-24) with h5 | h5
          · rw [classify_level_of_moyenPlus h4 h5]
            refine ⟨iff_of_false d4.symm (by linarith), ?_, ?_, ?_,
              iff_of_true rfl ⟨h4, h5⟩, ?_⟩
            · exact iff_of_false d8.symm (by rintro ⟨_, hb⟩; linarith)
            · exact iff_of_false d11.symm (by rintro ⟨_, hb⟩; linarith)
            · exact iff_of_false d13.symm (by rintro ⟨_, hb⟩; linarith)
            · exact iff_of_false d15 (by intro ha; linarith)
          · rw [classify_level_of_eleve h5]
            refine ⟨iff_of_false d5.symm (by linarith), ?_, ?_, ?_, ?_,
              iff_of_true rfl h5⟩
            · exact iff_of_false d9.symm (by rintro ⟨_, hb⟩; linarith)
            · exact iff_of_false d12.symm (by rintro ⟨_, hb⟩; linarith)
            · exact iff_of_false d14.symm (by rintro ⟨_, hb⟩; linarith)
            · exact iff_of_false d15.symm (by rintro ⟨_, hb⟩; linarith)

/-- C1: for every rational `meanDb`, `classify_level` lands in exactly one of
the six bands, cut by strict less-than against the ascending thresholds
-50, -42, -36, -30, -24, so a value exactly on a boundary belongs to the
higher band: `classify_level (-50)` is the second band (label "BAS"),
`classify_level (-50.1)` is the lowest band, and `classify_level (-24)` is
the highest band. -/
theorem claim_C1_classify_boundaries (q : ℚ) :
    (classify_level q = tresBasLevel ↔ q < -50) ∧
    (classify_level q = basLevel ↔ -50 ≤ q ∧ q < -42) ∧
    (classify_level q = moyenMoinsLevel ↔ -42 ≤ q ∧ q < -36) ∧
    (classify_level q = moyenLevel ↔ -36 ≤ q ∧ q < -30) ∧
    (classify_level q = moyenPlusLevel ↔ -30 ≤ q ∧ q < -24) ∧
    (classify_level q = eleveLevel ↔ -24 ≤ q) ∧
    classify_level (-50) = basLevel ∧
    basLevel.label = pystr "BAS" ∧
    classify_level (Rat.divInt (-501) 10) = tresBasLevel ∧
    classify_level (-24) = eleveLevel := by
  obtain ⟨i1, i2, i3, i4, i5, i6⟩ := classify_level_iff q
  refine ⟨i1, i2, i3, i4, i5, i6, by decide, by decide, by decide, by decide⟩

/-- C2: band assignment is monotone non-decreasing in `meanDb`: for rationals
`a ≤ b`, the band of `a` is at or below the band of `b` in the six-band
order (ranked by `levelRank`). -/
theorem claim_C2_classify_monotone (a b : ℚ) (hab : a ≤ b) :
    levelRank (classify_level a) ≤ levelRank (classify_level b) := by
  unfold classify_level
  split_ifs <;> first | decide | (exfalso; linarith)

/-- Witness for C2 at the concrete pair (-50, -24). -/
theorem claim_C2_witness :
    levelRank (classify_level (-50)) ≤ levelRank (classify_level (-24)) :=
  claim_C2_classify_monotone (-50) (-24) (by decide)

/-- Numeric value of a digit string (most significant first). -/
def digitsVal (cs : PyStr) : ℕ := cs.foldl (fun n c => 10 * n + (c.toNat - 48)) 0

/-- Exact rational value of the decimal `n / 10^fracLen * 10^exp`, built with
`Rat.divInt` so that concrete instances reduce in the kernel. -/
def decimalToRat (n : ℤ) (fracLen : ℕ) (exp : ℤ) : ℚ :=
  if 0 ≤ exp then Rat.divInt (n * 10 ^ exp.toNat) (10 ^ fracLen)
  else Rat.divInt n (10 ^ fracLen * 10 ^ (-exp).toNat)

/-- Mantissa of a Python float literal: digits with at most one decimal point
and at least one digit (`12`, `12.`, `.5`, `1.5`). Returns the digits as a
natural number together with the number of fractional digits. -/
def parseMantissa (cs : PyStr) : Option (ℕ × ℕ) :=
  let intPart := cs.takeWhile Char.isDigit
  let rest := cs.dropWhile Char.isDigit
  match rest with
  | [] => if intPart.isEmpty then none else some (digitsVal intPart, 0)
  | '.' :: rest2 =>
    let fracPart := rest2.takeWhile Char.isDigit
    let rest3 := rest2.dropWhile Char.isDigit
    if rest3.isEmpty && !(intPart.isEmpty && fracPart.isEmpty) then
      some (digitsVal (intPart ++ fracPart), fracPart.length)
    else none
  | _ => none

/-- Exponent tail of a Python float literal (the part after `e`/`E`):
an optional sign followed by at least one digit. -/
def parseExpDigits (s : PyStr) : Option ℤ :=
  let signed : ℤ × PyStr :=
    match s with
    | '+' :: t => (1, t)
    | '-' :: t => (-1, t)
    | _ => (1, s)
  if !signed.2.isEmpty && signed.2.all Char.isDigit then
    some (signed.1 * digitsVal signed.2)
  else none

/-- Model of Python's builtin `float(s)` on the strings this program feeds
it (regex captures over `[-\d.]` and command-line tokens): an optional sign,
a decimal mantissa, and an optional `e`/`E` exponent, evaluated exactly in
`ℚ`. Python additionally strips surrounding whitespace, accepts underscores
between digits and the `inf`/`nan` words, and rounds to an IEEE double;
those cases are outside this exact-rational model. -/
def pyFloat (s : PyStr) : Option ℚ :=
  let signed : ℤ × PyStr :=
    match s with
    | '+' :: t => (1, t)
    | '-' :: t => (-1, t)
    | _ => (1, s)
  let mant := signed.2.takeWhile (fun c => c != 'e' && c != 'E')
  let expPart := signed.2.dropWhile (fun c => c != 'e' && c != 'E')
  match parseMantissa mant with
  | none => none
  | some (n, f) =>
    match expPart with
    | [] => some (decimalToRat (signed.1 * n) f 0)
    | _ :: et =>
      match parseExpDigits et with
      | none => none
      | some e => some (decimalToRat (signed.1 * n) f e)

/-- Character class `[-\d.]` of the volume regexes (line 69-70). -/
def isVolChar (c : Char) : Bool := c = '-' || c = '.' || Char.isDigit c

/-- Character class `\s` (ASCII whitespace; the diagnostic text is ASCII). -/
def isSpaceChar (c : Char) : Bool :=
  c = ' ' || c = '\t' || c = '\n' || c = '\r' || c = '\x0b' || c = '\x0c'

/-- Drop a literal prefix, or fail. -/
def dropLit : PyStr → PyStr → Option PyStr
  | [], cs => some cs
  | _ :: _, [] => none
  | k :: ks, c :: cs => if c = k then dropLit ks cs else none

/-- Match the regex `key\s*([-\d.]+)\s*dB` at the start of `cs`, returning
the capture group. Greedy maximal munch is exact here: the classes `[-\d.]`
and `\s` are disjoint from each other and from the literal `d` that follows,
so the backtracking regex engine accepts exactly the maximal runs. -/
def matchVolumeAt (key cs : PyStr) : Option PyStr :=
  match dropLit key cs with
  | none => none
  | some r1 =>
    let r2 := r1.dropWhile isSpaceChar
    let cap := r2.takeWhile isVolChar
    let r3 := r2.dropWhile isVolChar
    if cap.isEmpty then none
    else
      match dropLit (pystr "dB") (r3.dropWhile isSpaceChar) with
      | some _ => some cap
      | none => none

/-- Model of `re.search(key + r"\s*([-\d.]+)\s*dB", text)` (lines 69-70):
try the pattern at each position left to right and return the leftmost
capture. -/
def searchVolume (key : PyStr) : PyStr → Option PyStr
  | [] => matchVolumeAt key []
  | c :: cs =>
    match matchVolumeAt key (c :: cs) with
    | some cap => some cap
    | none => searchVolume key cs

/-- The literal part of the `mean_volume` regex (line 69). -/
def meanKey : PyStr := pystr "mean_volume:"

/-- The literal part of the `max_volume` regex (line 70). -/
def maxKey : PyStr := pystr "max_volume:"

/-- The four failure branches of `analyze_audio_level`, tagged by the
branch that produced them; `message` recovers the `error` string of the
returned dict. -/
inductive FailureKind where
  | notFound
  | noAudioStream
  | timeout
  | toolError (msg : PyStr)
deriving DecidableEq

/-- Error string stored under the `error` key for each failure branch. -/
def FailureKind.message : FailureKind → PyStr
  | .notFound => pystr "Fichier non trouvé"
  | .noAudioStream => pystr "Pas de piste audio"
  | .timeout => pystr "Timeout"
  | .toolError msg => msg

/-- The dict returned by `analyze_audio_level`: either a failure dict
(`fichier` + `error`) or a success dict (`fichier`, `chemin`, the two
levels, and the classification). -/
inductive Measurement where
  | failure (fichier : PyStr) (kind : FailureKind)
  | success (fichier chemin : PyStr) (niveau_moyen_db niveau_max_db : ℚ) (level : LevelInfo)
deriving DecidableEq

/-- The `fichier` key, present on every measurement dict (sort key of the
batch, line 171). -/
def Measurement.fichierOf : Measurement → PyStr
  | .failure f _ => f
  | .success f _ _ _ _ => f

/-- Whether the dict carries no `error` key (`'error' not in r`). -/
def Measurement.isValid : Measurement → Bool
  | .failure _ _ => false
  | .success _ _ _ _ _ => true

/-- Outcome of the `subprocess.run` call inside `analyze_audio_level`:
it returned (with an exit code and captured stderr), it hit the 300s
timeout (`subprocess.TimeoutExpired`), or it raised some other exception
with message `msg`. -/
inductive ProcOutcome where
  | ran (exitCode : ℤ) (stderr : PyStr)
  | timedOut
  | raised (msg : PyStr)
deriving DecidableEq

/-- Message of the `ValueError` raised by `float()` on a malformed capture
(Python additionally wraps the offending text in quotes). -/
def floatErrMsg (cap : PyStr) : PyStr :=
  pystr "could not convert string to float: " ++ cap

/-- Embedding of `analyze_audio_level` (lines 44-92). `pathExists` stands
for `path.exists()`, and `proc` for the outcome of the external `ffmpeg`
invocation; the exit code of a completed run is never consulted. A
`float()` failure on a matched capture is the `ValueError` caught by the
generic `except Exception` handler (lines 91-92). -/
def analyze_audio_level (fichier chemin : PyStr) (pathExists : Bool) (proc : ProcOutcome) :
    Measurement :=
  if !pathExists then .failure fichier .notFound
  else
    match proc with
    | .timedOut => .failure fichier .timeout
    | .raised msg => .failure fichier (.toolError msg)
    | .ran _exitCode stderr =>
      match searchVolume meanKey stderr, searchVolume maxKey stderr with
      | some mcap, some xcap =>
        (match pyFloat mcap with
         | none => .failure fichier (.toolError (floatErrMsg mcap))
         | some m =>
           match pyFloat xcap with
           | none => .failure fichier (.toolError (floatErrMsg xcap))
           | some x => .success fichier chemin m x (classify_level m))
      | _, _ => .failure fichier .noAudioStream

/-- C5: for every diagnostic text, the extractor in `analyze_audio_level`
returns the `NoAudioStream` failure ("Pas de piste audio") if and only if
at least one of the two patterns `mean_volume: <number> dB` and
`max_volume: <number> dB` is absent; when both match and the captures are
numeric, it returns the two parsed decibel values (amended: a matched but
malformed capture — possible since the capture class is `[-\d.]+` — raises
`ValueError` in `float()` and is returned as a `ToolError`, not as the two
numbers; see the counterexample). -/
theorem claim_C5_extractor (fichier chemin : PyStr) (code : ℤ) (stderr : PyStr) :
    (analyze_audio_level fichier chemin true (.ran code stderr) =
        .failure fichier .noAudioStream ↔
      searchVolume meanKey stderr = none ∨ searchVolume maxKey stderr = none) ∧
    (∀ mcap xcap m x, searchVolume meanKey stderr = some mcap →
      searchVolume maxKey stderr = some xcap →
      pyFloat mcap = some m → pyFloat xcap = some x →
      analyze_audio_level fichier chemin true (.ran code stderr) =
        .success fichier chemin m x (classify_level m)) := by
  constructor
  · cases hm : searchVolume meanKey stderr with
    | none => simp [analyze_audio_level, hm]
    | some mcap =>
      cases hx : searchVolume maxKey stderr with
      | none => simp [analyze_audio_level, hm, hx]
      | some xcap =>
        simp only [analyze_audio_level, hm, hx, Bool.not_true, Bool.false_eq_true,
          if_false]
        cases hpm : pyFloat mcap with
        | none => simp [hpm]
        | some m =>
          cases hpx : pyFloat xcap with
          | none => simp [hpm, hpx]
          | some x => simp [hpm, hpx]
  · intro mcap xcap m x hm hx hpm hpx
    simp [analyze_audio_level, hm, hx, hpm, hpx]

/-- Witness for C5 on a well-formed diagnostic text: both patterns match
and the parsed levels -33 dB and -5 dB are returned. -/
theorem claim_C5_witness :
    analyze_audio_level (pystr "f.mp4") (pystr "d/f.mp4") true
        (.ran 0 (pystr "mean_volume: -33 dB\nmax_volume: -5 dB")) =
      .success (pystr "f.mp4") (pystr "d/f.mp4") (-33) (-5) (classify_level (-33)) :=
  (claim_C5_extractor (pystr "f.mp4") (pystr "d/f.mp4") 0
      (pystr "mean_volume: -33 dB\nmax_volume: -5 dB")).2
    (pystr "-33") (pystr "-5") (-33) (-5) (by decide) (by decide) (by decide) (by decide)

/-- Counterexample to C5 as stated: on the diagnostic text
`mean_volume: . dB max_volume: . dB` both patterns match (capture `.`),
yet the result is a `ToolError`, not the two parsed decibel numbers. -/
theorem claim_C5_counterexample :
    searchVolume meanKey (pystr "mean_volume: . dB max_volume: . dB") =
        some (pystr ".") ∧
    searchVolume maxKey (pystr "mean_volume: . dB max_volume: . dB") =
        some (pystr ".") ∧
    analyze_audio_level (pystr "f.mp4") (pystr "d/f.mp4") true
        (.ran 0 (pystr "mean_volume: . dB max_volume: . dB")) =
      .failure (pystr "f.mp4") (.toolError (floatErrMsg (pystr "."))) :=
  ⟨by decide, by decide, by decide⟩

/-- C6 (amended): `analyze_audio_level` is total over every invocation
outcome — a timeout returns the `Timeout` failure, and a spawn failure or
unexpected exception returns `ToolError` carrying the underlying message.
Amended: a non-zero exit of the external tool is NOT a `ToolError`; the
exit code of a completed run is ignored entirely, and the result depends
only on the captured diagnostic text (see the counterexample, where exit
code 1 with empty stderr yields `NoAudioStream`). -/
theorem claim_C6_invoker_outcomes (fichier chemin msg : PyStr) (code code' : ℤ)
    (stderr : PyStr) :
    analyze_audio_level fichier chemin true .timedOut = .failure fichier .timeout ∧
    analyze_audio_level fichier chemin true (.raised msg) =
      .failure fichier (.toolError msg) ∧
    analyze_audio_level fichier chemin true (.ran code stderr) =
      analyze_audio_level fichier chemin true (.ran code' stderr) :=
  ⟨rfl, rfl, rfl⟩

/-- Counterexample to C6 as stated: a non-zero exit (exit code 1, empty
diagnostic text) yields the `NoAudioStream` failure, not a `ToolError`. -/
theorem claim_C6_counterexample :
    analyze_audio_level (pystr "f.mp4") (pystr "f.mp4") true (.ran 1 []) =
      .failure (pystr "f.mp4") .noAudioStream := by decide

lemma pyStrLe_trans : ∀ a b c : PyStr,
    pyStrLe a b = true → pyStrLe b c = true → pyStrLe a c = true
  | [], _, _, _, _ => rfl
  | _ :: _, [], _, h1, _ => by simp [pyStrLe] at h1
  | _ :: _, _ :: _, [], _, h2 => by simp [pyStrLe] at h2
  | x :: xs, y :: ys, z :: zs, h1, h2 => by
    simp only [pyStrLe] at h1 h2 ⊢
    by_cases hxy : x < y
    · by_cases hyz : y < z
      · simp [lt_trans hxy hyz]
      · by_cases hzy : z < y
        · simp [hyz, hzy] at h2
        · have hyzeq : y = z := le_antisymm (not_lt.mp hzy) (not_lt.mp hyz)
          subst hyzeq; simp [hxy]
    · by_cases hyx : y < x
      · simp [hxy, hyx] at h1
      · have hxyeq : x = y := le_antisymm (not_lt.mp hyx) (not_lt.mp hxy)
        subst hxyeq
        simp only [lt_irrefl, if_false] at h1
        by_cases hxz : x < z
        · simp [hxz]
        · by_cases hzx : z < x
          · simp [hxz, hzx] at h2
          · have hxzeq : x = z := le_antisymm (not_lt.mp hzx) (not_lt.mp hxz)
            subst hxzeq
            simp only [lt_irrefl, if_false] at h2 ⊢
            exact pyStrLe_trans xs ys zs h1 h2

lemma pyStrLe_total : ∀ a b : PyStr, (pyStrLe a b || pyStrLe b a) = true
  | [], _ => by simp [pyStrLe]
  | _ :: _, [] => by simp [pyStrLe]
  | x :: xs, y :: ys => by
    simp only [pyStrLe]
    by_cases hxy : x < y
    · simp [hxy, lt_asymm hxy]
    · by_cases hyx : y < x
      · simp [hxy, hyx]
      · simp only [hxy, hyx, if_false]
        exact pyStrLe_total xs ys

/-- Comparison used by `results.sort(key=lambda x: x.get('fichier', ''))`
(line 171): order measurements by their `fichier` display name. -/
def measurementLe (a b : Measurement) : Bool := pyStrLe a.fichierOf b.fichierOf

lemma measurementLe_trans (a b c : Measurement) :
    measurementLe a b = true → measurementLe b c = true → measurementLe a c = true :=
  pyStrLe_trans _ _ _

lemma measurementLe_total (a b : Measurement) :
    (measurementLe a b || measurementLe b a) = true :=
  pyStrLe_total _ _

/-- Embedding of the final deterministic sort of `analyze_folder`
(line 171), as a stable merge sort like CPython's `list.sort`. -/
def sort_results (rs : List Measurement) : List Measurement := rs.mergeSort measurementLe

/-- Embedding of the collection loop of `analyze_folder` (lines 155-173):
the worker pool yields one measurement per submitted file, appended in
completion order (`as_completed`), and the accumulated list is then sorted
by display name. The worker-pool width influences only which completion
order arises, so the completion order is the model's free parameter;
`measure` abstracts `analyze_audio_level` applied to one path. -/
def analyze_folder_results (measure : PyStr → Measurement)
    (completionOrder : List PyStr) : List Measurement :=
  sort_results (completionOrder.map measure)

/-- C3: for every discovered file set of size N, every worker-pool width
and every completion order (any permutation of the file set), the batch
returns exactly N measurements — one per input file, none dropped, none
duplicated (a permutation of the per-file measurements) — sorted by
display name ascending. -/
theorem claim_C3_batch_complete_sorted (measure : PyStr → Measurement)
    (files completionOrder : List PyStr) (hperm : completionOrder.Perm files) :
    (analyze_folder_results measure completionOrder).length = files.length ∧
    (analyze_folder_results measure completionOrder).Perm (files.map measure) ∧
    (analyze_folder_results measure completionOrder).Pairwise
      (fun a b => measurementLe a b = true) := by
  have hp : (analyze_folder_results measure completionOrder).Perm (files.map measure) :=
    ((completionOrder.map measure).mergeSort_perm measurementLe).trans (hperm.map measure)
  refine ⟨by rw [hp.length_eq, List.length_map], hp, ?_⟩
  exact List.sorted_mergeSort measurementLe_trans measurementLe_total
    (completionOrder.map measure)

/-- Witness for C3: a two-file set measured in reversed completion order. -/
theorem claim_C3_witness :
    (analyze_folder_results (fun f => .failure f .timeout)
        [pystr "b.mp4", pystr "a.mp4"]).length =
      ([pystr "a.mp4", pystr "b.mp4"] : List PyStr).length ∧
    (analyze_folder_results (fun f => .failure f .timeout)
        [pystr "b.mp4", pystr "a.mp4"]).Perm
      (([pystr "a.mp4", pystr "b.mp4"] : List PyStr).map
        (fun f => Measurement.failure f .timeout)) ∧
    (analyze_folder_results (fun f => .failure f .timeout)
        [pystr "b.mp4", pystr "a.mp4"]).Pairwise
      (fun a b => measurementLe a b = true) :=
  claim_C3_batch_complete_sorted (fun f => .failure f .timeout)
    [pystr "a.mp4", pystr "b.mp4"] [pystr "b.mp4", pystr "a.mp4"] (by decide)

/-- Python `str.upper()` on the ASCII extension strings (line 145). -/
def strUpper (s : PyStr) : PyStr := s.map Char.toUpper

/-- Whether `folder.glob(f"*{ext}")` matches a directory entry: `*` matches
any (possibly empty) character sequence, so the pattern matches exactly the
names ending in the literal `ext` (lines 143-145). -/
def globExtMatch (ext name : PyStr) : Bool := ext.isSuffixOf name

/-- Embedding of the discovery part of `analyze_folder` (lines 141-147):
for each configured extension, collect the entries matching `*{ext}` and
`*{ext.upper()}`, then `sorted(set(files))`. `names` is the directory
listing. -/
def discover_files (names extensions : List PyStr) : List PyStr :=
  (extensions.flatMap (fun ext =>
    names.filter (fun n => globExtMatch ext n) ++
    names.filter (fun n => globExtMatch (strUpper ext) n))).dedup.mergeSort pyStrLe

lemma discover_files_nodup (names extensions : List PyStr) :
    (discover_files names extensions).Nodup := by
  unfold discover_files
  exact ((List.mergeSort_perm _ pyStrLe).symm).nodup (List.nodup_dedup _)

lemma discover_files_mem (names extensions : List PyStr) (p : PyStr) :
    p ∈ discover_files names extensions ↔
      p ∈ names ∧ ∃ ext ∈ extensions,
        globExtMatch ext p = true ∨ globExtMatch (strUpper ext) p = true := by
  unfold discover_files
  rw [(List.mergeSort_perm _ pyStrLe).mem_iff, List.mem_dedup]
  simp only [List.mem_flatMap, List.mem_append, List.mem_filter]
  constructor
  · rintro ⟨ext, hext, h | h⟩
    · exact ⟨h.1, ext, hext, Or.inl h.2⟩
    · exact ⟨h.1, ext, hext, Or.inr h.2⟩
  · rintro ⟨hp, ext, hext, h | h⟩
    · exact ⟨ext, hext, Or.inl ⟨hp, h⟩⟩
    · exact ⟨ext, hext, Or.inr ⟨hp, h⟩⟩

/-- C8 (amended): discovery matches a directory entry exactly when it ends
in one of the listed extensions as written or in its fully-uppercased
variant — NOT every casing variant (see the counterexample: `a.Mp4` is not
found for the listed `.mp4`) — and the discovered set is duplicate-free, so
a path matched by several extension-case variants appears exactly once. -/
theorem claim_C8_discovery (names extensions : List PyStr) (p : PyStr) :
    (discover_files names extensions).Nodup ∧
    (p ∈ discover_files names extensions ↔
      p ∈ names ∧ ∃ ext ∈ extensions,
        globExtMatch ext p = true ∨ globExtMatch (strUpper ext) p = true) :=
  ⟨discover_files_nodup names extensions, discover_files_mem names extensions p⟩

/-- Counterexample to C8 as stated: the mixed-casing variant `a.Mp4` of the
listed extension `.mp4` is not discovered. -/
theorem claim_C8_counterexample :
    ¬ pystr "a.Mp4" ∈ discover_files [pystr "a.Mp4"] [pystr ".mp4"] := by
  rw [discover_files_mem]
  decide

/-- The two correction modes of `process_corrections` (the `mode` string
argument, `"normalize"` or `"boost"`). -/
inductive Mode where
  | normalize
  | boost
deriving DecidableEq

/-- Embedding of the gain computation of `process_corrections`
(lines 523-527): `value - r['niveau_moyen_db']` in normalize mode, the
flat `value` in boost mode. -/
def correction_gain (mode : Mode) (value niveau_moyen_db : ℚ) : ℚ :=
  match mode with
  | .normalize => value - niveau_moyen_db
  | .boost => value

/-- Python `int(q)`: truncation toward zero. -/
def pyIntTrunc (q : ℚ) : ℤ := if 0 ≤ q then ⌊q⌋ else ⌈q⌉

/-- Decimal digits of a natural number (Python `str` of a nonnegative int). -/
def natToStr (n : ℕ) : PyStr := Nat.toDigits 10 n

/-- Python `str` of an int. -/
def intToStr (n : ℤ) : PyStr :=
  if n < 0 then '-' :: natToStr (-n).toNat else natToStr n.toNat

/-- Embedding of the output-directory name (lines 508-511):
`normalized_{int(abs(value))}dB` or `boosted_+{int(value)}dB`. -/
def output_dir_name (mode : Mode) (value : ℚ) : PyStr :=
  match mode with
  | .normalize => pystr "normalized_" ++ intToStr (pyIntTrunc |value|) ++ pystr "dB"
  | .boost => pystr "boosted_+" ++ intToStr (pyIntTrunc value) ++ pystr "dB"

/-- The fields of a success dict used by the correction pass. -/
structure SuccessRecord where
  fichier : PyStr
  chemin : PyStr
  niveau_moyen_db : ℚ
  niveau_max_db : ℚ
  level : LevelInfo
deriving DecidableEq

/-- Extract the success payload of a measurement, if any; `filterMap` over
this models `[r for r in results if 'error' not in r]` (line 501). -/
def Measurement.successRecord? : Measurement → Option SuccessRecord
  | .failure _ _ => none
  | .success f c m x l => some ⟨f, c, m, x, l⟩

/-- One corrective-transcode invocation (`apply_audio_correction(input_path,
gain, str(output_path))`, line 534). -/
structure Invocation where
  input : PyStr
  gain : ℚ
  output : PyStr
deriving DecidableEq

/-- The invocation built for one eligible file in the loop body
(lines 522-534): input is `r['chemin']`, gain is `correction_gain`, output
is `output_dir / r['fichier']`. -/
def mkInvocation (outputDir : PyStr) (mode : Mode) (value : ℚ) (r : SuccessRecord) :
    Invocation :=
  ⟨r.chemin, correction_gain mode value r.niveau_moyen_db, outputDir ++ '/' :: r.fichier⟩

/-- Embedding of the sequential correction loop (lines 519-537): one
invocation per eligible record, counting successes and failures as decided
by the external tool (`toolOk` abstracts whether `apply_audio_correction`
returns True). Returns (success count, error count, invocations in order). -/
def correction_loop (toolOk : Invocation → Bool) (outputDir : PyStr) (mode : Mode)
    (value : ℚ) : List SuccessRecord → ℕ × ℕ × List Invocation
  | [] => (0, 0, [])
  | r :: rs =>
    let inv := mkInvocation outputDir mode value r
    let rest := correction_loop toolOk outputDir mode value rs
    if toolOk inv then (rest.1 + 1, rest.2.1, inv :: rest.2.2)
    else (rest.1, rest.2.1 + 1, inv :: rest.2.2)

/-- Embedding of `process_corrections` (lines 498-543): filter the
error-free measurements, build the output directory name, and run the
sequential correction loop. (When no measurement is error-free the code
returns early having invoked nothing, which coincides with the loop on the
empty list: counters 0/0 and no invocations.) -/
def process_corrections (results : List Measurement) (folder : PyStr) (mode : Mode)
    (value : ℚ) (toolOk : Invocation → Bool) : ℕ × ℕ × List Invocation :=
  correction_loop toolOk (folder ++ '/' :: output_dir_name mode value) mode value
    (results.filterMap Measurement.successRecord?)

lemma correction_loop_spec (toolOk : Invocation → Bool) (outputDir : PyStr) (mode : Mode)
    (value : ℚ) : ∀ rs : List SuccessRecord,
    (correction_loop toolOk outputDir mode value rs).2.2 =
      rs.map (mkInvocation outputDir mode value) ∧
    (correction_loop toolOk outputDir mode value rs).1 +
      (correction_loop toolOk outputDir mode value rs).2.1 = rs.length
  | [] => ⟨rfl, rfl⟩
  | r :: rs => by
    have ih := correction_loop_spec toolOk outputDir mode value rs
    rcases hres : correction_loop toolOk outputDir mode value rs with ⟨s, e, invs⟩
    rw [hres] at ih
    obtain ⟨hinv, hcount⟩ := ih
    dsimp only at hinv hcount
    simp only [correction_loop, List.map_cons, List.length_cons]
    rw [hres]
    by_cases h : toolOk (mkInvocation outputDir mode value r) = true
    · rw [if_pos h]
      dsimp only
      exact ⟨by rw [hinv], by omega⟩
    · rw [if_neg h]
      dsimp only
      exact ⟨by rw [hinv], by omega⟩

lemma filterMap_successRecord_length : ∀ results : List Measurement,
    (results.filterMap Measurement.successRecord?).length =
      (results.filter (fun r => r.isValid)).length
  | [] => rfl
  | r :: rs => by
    have ih := filterMap_successRecord_length rs
    cases r <;> simp [Measurement.successRecord?, Measurement.isValid, ih]

/-- C4: the gain computed by the correction engine is `value - mean` in
normalize mode — so the target equals the measured mean plus the gain
exactly — and exactly `value` in boost mode, identical for every file
regardless of its measured level. -/
theorem claim_C4_gain_computation (value mean mean' : ℚ) :
    correction_gain .normalize value mean = value - mean ∧
    mean + correction_gain .normalize value mean = value ∧
    correction_gain .boost value mean = value ∧
    correction_gain .boost value mean = correction_gain .boost value mean' :=
  ⟨rfl, by show mean + (value - mean) = value; ring, rfl, rfl⟩

/-- C9: `process_corrections` makes exactly one corrective-transcode
invocation per error-free measurement (in order, none for failure
measurements, none dropped or duplicated), and the success and failure
counters sum to the number of error-free measurements. -/
theorem claim_C9_one_invocation_per_valid (results : List Measurement) (folder : PyStr)
    (mode : Mode) (value : ℚ) (toolOk : Invocation → Bool) :
    (process_corrections results folder mode value toolOk).2.2 =
      (results.filterMap Measurement.successRecord?).map
        (mkInvocation (folder ++ '/' :: output_dir_name mode value) mode value) ∧
    (process_corrections results folder mode value toolOk).1 +
      (process_corrections results folder mode value toolOk).2.1 =
      (results.filter (fun r => r.isValid)).length := by
  obtain ⟨hinv, hcount⟩ := correction_loop_spec toolOk
    (folder ++ '/' :: output_dir_name mode value) mode value
    (results.filterMap Measurement.successRecord?)
  exact ⟨hinv, by rw [← filterMap_successRecord_length]; exact hcount⟩

/-- Outcome of the option-parsing prologue of `main`: either a parsed value
or the process exited via `sys.exit(1)`. -/
inductive ParseResult (α : Type) where
  | ok (val : α)
  | exited
deriving DecidableEq

/-- Embedding of one correction-flag parse in `main` (lines 579-595): if
the flag occurs in `argv` (first occurrence, `list.index`) and is followed
by a token, `float()` it — an unparseable token is `sys.exit(1)`; a flag in
final position leaves the value unset without exiting. -/
def parse_value_flag (flag : PyStr) (argv : List PyStr) : ParseResult (Option ℚ) :=
  match argv.findIdx? (fun a => a == flag) with
  | none => .ok none
  | some idx =>
    match argv[idx + 1]? with
    | none => .ok none
    | some s =>
      match pyFloat s with
      | some v => .ok (some v)
      | none => .exited

/-- The full option-parsing prologue of `main` (lines 576-595):
`--normalize` is parsed first, then `--boost`; either can exit. -/
def parse_correction_args (argv : List PyStr) : ParseResult (Option ℚ × Option ℚ) :=
  match parse_value_flag (pystr "--normalize") argv with
  | .exited => .exited
  | .ok nt =>
    match parse_value_flag (pystr "--boost") argv with
    | .exited => .exited
    | .ok bv => .ok (nt, bv)

/-- Which correction runs after an analysis pass. -/
inductive CorrectionChoice where
  | noCorrection
  | runNormalize (target : ℚ)
  | runBoost (gain : ℚ)
deriving DecidableEq

/-- Embedding of the single-file correction branch of `main`
(lines 610-625): `if normalize_target is not None: ... elif boost_value is
not None: ...`. -/
def single_file_correction (normalize_target boost_value : Option ℚ) : CorrectionChoice :=
  match normalize_target with
  | some v => .runNormalize v
  | none =>
    match boost_value with
    | some b => .runBoost b
    | none => .noCorrection

/-- Embedding of the directory correction branch of `main` (lines 651-654),
structurally identical to the single-file branch. -/
def folder_correction (normalize_target boost_value : Option ℚ) : CorrectionChoice :=
  match normalize_target with
  | some v => .runNormalize v
  | none =>
    match boost_value with
    | some b => .runBoost b
    | none => .noCorrection

/-- Correction dispatch of `main`: parse the flags (exiting on an invalid
numeric argument, before any analysis or correction), then select the
correction for the single-file path (`isFile = true`) or the directory
path (`isFile = false`). -/
def main_correction_dispatch (argv : List PyStr) (isFile : Bool) :
    ParseResult CorrectionChoice :=
  match parse_correction_args argv with
  | .exited => .exited
  | .ok (nt, bv) =>
    .ok (if isFile then single_file_correction nt bv else folder_correction nt bv)

/-- C7 (amended): a correction flag followed by a token that does not parse
as a float makes the program exit (via `sys.exit(1)`, before any analysis
or correction processing), and the prologue exits exactly when one of the
two flag parses exits. Amended: a flag with a MISSING argument (flag in
final position) does not exit — it is silently ignored and no correction
value is set (see the counterexample). -/
theorem claim_C7_invalid_arg_exits (argv : List PyStr) :
    (parse_correction_args argv = .exited ↔
      parse_value_flag (pystr "--normalize") argv = .exited ∨
      parse_value_flag (pystr "--boost") argv = .exited) ∧
    (∀ flag i s, argv.findIdx? (fun a => a == flag) = some i →
      argv[i + 1]? = some s → pyFloat s = none →
      parse_value_flag flag argv = .exited) := by
  constructor
  · unfold parse_correction_args
    cases hn : parse_value_flag (pystr "--normalize") argv with
    | exited => simp
    | ok nt =>
      cases hb : parse_value_flag (pystr "--boost") argv with
      | exited => simp
      | ok bv => simp
  · intro flag i s hfind hget hbad
    simp only [parse_value_flag, hfind, hget, hbad]

/-- Witness for C7: `--normalize abc` exits. -/
theorem claim_C7_witness :
    parse_correction_args
      [pystr "audio_level_analyzer.py", pystr "dir", pystr "--normalize", pystr "abc"] =
      .exited :=
  (claim_C7_invalid_arg_exits
      [pystr "audio_level_analyzer.py", pystr "dir", pystr "--normalize", pystr "abc"]).1.mpr
    (Or.inl ((claim_C7_invalid_arg_exits
        [pystr "audio_level_analyzer.py", pystr "dir", pystr "--normalize", pystr "abc"]).2
      (pystr "--normalize") 2 (pystr "abc") (by decide) (by decide) (by decide)))

/-- Counterexample to C7 as stated: `--normalize` with a MISSING argument
(flag in final position) does not exit — parsing succeeds with no
correction value set, and processing proceeds. -/
theorem claim_C7_counterexample :
    parse_correction_args [pystr "audio_level_analyzer.py", pystr "dir",
      pystr "--normalize"] = .ok (none, none) := by decide

/-- C10: when both `--normalize` and `--boost` are supplied with valid
numeric values, only the normalization correction is selected — the boost
value is silently ignored — in both the single-file and directory paths. -/
theorem claim_C10_normalize_precedence (argv : List PyStr) (nt bv : ℚ)
    (h : parse_correction_args argv = .ok (some nt, some bv)) :
    main_correction_dispatch argv true = .ok (.runNormalize nt) ∧
    main_correction_dispatch argv false = .ok (.runNormalize nt) := by
  unfold main_correction_dispatch
  rw [h]
  exact ⟨rfl, rfl⟩

/-- Witness for C10: `--normalize -24 --boost 10` selects normalization to
-24 dB on both paths. -/
theorem claim_C10_witness :
    main_correction_dispatch [pystr "audio_level_analyzer.py", pystr "./videos",
        pystr "--normalize", pystr "-24", pystr "--boost", pystr "10"] true =
      .ok (.runNormalize (-24)) ∧
    main_correction_dispatch [pystr "audio_level_analyzer.py", pystr "./videos",
        pystr "--normalize", pystr "-24", pystr "--boost", pystr "10"] false =
      .ok (.runNormalize (-24)) :=
  claim_C10_normalize_precedence _ (-24) 10 (by decide)
